import Mathlib

/-!
Shallow embedding of `src/Codes/Registration.py`, a SimpleITK-based image
registration module with four functions: `est_lin_transf` (affine estimation),
`est_nl_transf` (B-spline free-form deformation estimation), and
`apply_lin_transf` / `apply_nl_transf` (resampling an image through an
estimated transform).

Modelling conventions:
- intensities, spacings and physical coordinates are rationals (`ℚ`);
  Python's `int(x + 0.5)` is `pyInt (x + 1/2)` (truncation toward zero);
- an image records its SimpleITK metadata (`GetSize`, `GetSpacing`,
  `GetOrigin`, `GetDirection`, pixel type) plus a total pixel map;
- the two estimation functions are embedded up to the `Execute` call: they
  return the full `ImageRegistrationMethod` configuration together with the
  images handed to `Execute`.  The iterative optimizer itself is the external
  numerical engine and is not part of the configuration claims;
- SimpleITK (`CenteredTransformInitializerFilter` and
  `ImageRegistrationMethod::Execute`) rejects a fixed/moving pair of different
  dimensionality before any optimizer iteration runs; this library behaviour
  is modelled as the `Except` error channel with the spec's error taxonomy;
- `ResampleImageFilter.Execute` is modelled faithfully: the output grid is the
  filter's reference image, each output index is pushed to physical space,
  mapped by the transform, pulled back to a continuous index of the input
  image, and either linearly interpolated (inside the buffer) or given the
  default pixel value.  The direction matrix is inverted as its transpose,
  valid under the orthonormality invariant of the image model.
-/

namespace Registration

/-- Pixel value types of a SimpleITK image (the ones relevant here). -/
inductive PixelType where
  | uint8
  | int16
  | int32
  | float32
  | float64
  deriving DecidableEq

/-- A SimpleITK image: an N-dimensional regular grid of scalar samples with
its geometry metadata.  `pixels` is total over `List ℤ`; only indices inside
`size` are meaningful, which suffices for the claims treated here. -/
structure Image where
  dim : ℕ
  size : List ℕ
  spacing : List ℚ
  origin : List ℚ
  direction : List (List ℚ)
  pixelType : PixelType
  pixels : List ℤ → ℚ

/-- A spatial transform, as used by the resampler: a map from physical points
of the output space to physical points of the input space. -/
abbrev Transform := List ℚ → List ℚ

/-- Dot product of two coordinate lists. -/
def dot (u v : List ℚ) : ℚ := (List.zipWith (fun a b => a * b) u v).sum

/-- Matrix-vector product, matrix given as a list of rows. -/
def matVec (M : List (List ℚ)) (v : List ℚ) : List ℚ := M.map (fun row => dot row v)

/-- Physical point of a grid index: `origin + direction * (spacing .* index)`. -/
def physicalPointFromIndex (img : Image) (idx : List ℤ) : List ℚ :=
  List.zipWith (fun o c => o + c) img.origin
    (matVec img.direction (List.zipWith (fun s i => s * (i : ℚ)) img.spacing idx))

/-- Continuous index of a physical point:
`(directionᵀ * (p - origin)) ./ spacing` (direction is orthonormal, so the
transpose is the inverse). -/
def continuousIndexFromPhysical (img : Image) (p : List ℚ) : List ℚ :=
  List.zipWith (fun c s => c / s)
    (matVec img.direction.transpose (List.zipWith (fun a b => a - b) p img.origin))
    img.spacing

/-- ITK's buffered-region test for a continuous index: every coordinate lies
in `[-1/2, size - 1/2)`, the interval accepted by
`LinearInterpolateImageFunction::IsInsideBuffer`. -/
def insideBuffer (size : List ℕ) (c : List ℚ) : Bool :=
  (c.length == size.length) &&
    (List.zip size c).all (fun pr =>
      decide (-(1 / 2 : ℚ) ≤ pr.2 ∧ pr.2 < (pr.1 : ℚ) - 1 / 2))

/-- Clamp an interpolation neighbour index into the buffered region
`[0, n - 1]`, as ITK's linear interpolator does at the image border. -/
def clampIdx (n : ℕ) (i : ℤ) : ℤ := max 0 (min i ((n : ℤ) - 1))

/-- N-dimensional linear interpolation of a pixel map at a continuous index,
coordinate by coordinate, neighbours clamped to the buffer. -/
def interpLinear : (List ℤ → ℚ) → List (ℕ × ℚ) → ℚ
  | px, [] => px []
  | px, (n, c) :: rest =>
      (1 - (c - ⌊c⌋)) * interpLinear (fun idx => px (clampIdx n ⌊c⌋ :: idx)) rest
        + (c - ⌊c⌋) * interpLinear (fun idx => px (clampIdx n (⌊c⌋ + 1) :: idx)) rest

/-- Interpolators settable on SimpleITK filters (the code only ever selects
`sitkLinear`). -/
inductive Interpolator where
  | nearestNeighbor
  | linear
  | bspline
  deriving DecidableEq

/-- State of a `sitk.ResampleImageFilter` at `Execute` time, as configured by
`apply_lin_transf` / `apply_nl_transf`. -/
structure Resampler where
  referenceImage : Image
  transform : Transform
  interpolator : Interpolator
  defaultPixelValue : ℚ

/-- `ResampleImageFilter::Execute`: the output takes the reference image's
grid geometry and the input image's pixel type; each output index is mapped
through the transform into the input image, interpolated when inside the
buffer, and given the default pixel value otherwise.  Total by construction:
resampling never fails, for any transform/image pair. -/
def Resampler.execute (r : Resampler) (input : Image) : Image :=
  { dim := r.referenceImage.dim
    size := r.referenceImage.size
    spacing := r.referenceImage.spacing
    origin := r.referenceImage.origin
    direction := r.referenceImage.direction
    pixelType := input.pixelType
    pixels := fun idx =>
      let c := continuousIndexFromPhysical input
        (r.transform (physicalPointFromIndex r.referenceImage idx))
      if insideBuffer input.size c = true then
        interpLinear input.pixels (input.size.zip c)
      else r.defaultPixelValue }

/-- `apply_lin_transf(im_mov, lin_xfm)`: resample `im_mov` through `lin_xfm`
with the moving image itself as the reference grid, linear interpolation and
default pixel value 0. -/
def apply_lin_transf (im_mov : Image) (lin_xfm : Transform) : Image :=
  Resampler.execute
    { referenceImage := im_mov
      transform := lin_xfm
      interpolator := Interpolator.linear
      defaultPixelValue := 0 } im_mov

/-- `apply_nl_transf(im_mov, nl_xfm)`: resample `im_mov` through `nl_xfm`
with the moving image itself as the reference grid, linear interpolation and
default pixel value 0. -/
def apply_nl_transf (im_mov : Image) (nl_xfm : Transform) : Image :=
  Resampler.execute
    { referenceImage := im_mov
      transform := nl_xfm
      interpolator := Interpolator.linear
      defaultPixelValue := 0 } im_mov

/-- Python's `int(...)` on a real value: truncation toward zero. -/
def pyInt (x : ℚ) : ℤ := if 0 ≤ x then ⌊x⌋ else -⌊-x⌋

/-- The B-spline grid sizing of `est_nl_transf`, exactly as the code computes
it: `grid_physical_spacing = [50.0] * dim`,
`grid_size[i] = int(size[i] * spacing[i] / grid_physical_spacing[i] + 0.5)`,
then `grid_size[i] = max(3, grid_size[i])`. -/
def nlGridSize (im_ref : Image) : List ℤ :=
  let grid_physical_spacing : List ℚ := List.replicate im_ref.dim 50
  let gs := (List.range im_ref.dim).map (fun i =>
    pyInt ((im_ref.size.getD i 0 : ℚ) * im_ref.spacing.getD i 0
      / grid_physical_spacing.getD i 0 + 1 / 2))
  gs.map (fun g => max 3 g)

/-- `transform_domain_mesh_size = [g - 1 for g in grid_size]`. -/
def nlMeshSize (im_ref : Image) : List ℤ := (nlGridSize im_ref).map (fun g => g - 1)

/-- Modelled from the spec (refinement side, for comparison with the code's
`nlGridSize`): per axis, cell count is `round(voxel_count * voxel_spacing /
50.0)` — `round` read as nearest integer with halves rounded up, i.e.
`⌊x + 1/2⌋` — clamped to a minimum of 3. -/
def specCellCount (voxels : ℕ) (spacing : ℚ) : ℤ :=
  max 3 ⌊(voxels : ℚ) * spacing / 50 + 1 / 2⌋

/-- Modelled from the spec: mesh size is cell count minus one. -/
def specMeshSize (voxels : ℕ) (spacing : ℚ) : ℤ := specCellCount voxels spacing - 1

/-- Similarity metrics selected by the code. -/
inductive MetricKind where
  | meanSquares
  | mattesMutualInformation (numberOfHistogramBins : ℕ)
  deriving DecidableEq

/-- Metric sampling strategies of `sitk.ImageRegistrationMethod`. -/
inductive SamplingStrategy where
  | noSampling
  | regular
  | random
  deriving DecidableEq

/-- Optimizers selected by the code, with the numeric settings the calls pass. -/
inductive OptimizerKind where
  | gradientDescent (learningRate : ℚ) (numberOfIterations : ℕ)
      (convergenceMinimumValue : ℚ) (convergenceWindowSize : ℕ)
  | lbfgsb (gradientConvergenceTolerance : ℚ) (numberOfIterations : ℕ)
      (maximumNumberOfCorrections : ℕ) (maximumNumberOfFunctionEvaluations : ℕ)
  deriving DecidableEq

/-- Initial transform installed into the registration method. -/
inductive InitialTransformKind where
  | centeredAffine (dim : ℕ)
  | bspline (meshSize : List ℤ)
  deriving DecidableEq

/-- Error taxonomy of the spec; dimension mismatch is `invalidInput`. -/
inductive RegError where
  | invalidInput
  | invalidGeometry
  | invalidMask
  deriving DecidableEq

/-- State of a `sitk.ImageRegistrationMethod` at the moment `Execute` is
invoked, together with the images handed to `Execute`. -/
structure RegistrationSetup where
  metric : MetricKind
  samplingStrategy : SamplingStrategy
  samplingPercentage : ℚ
  fixedMask : Option Image
  interpolator : Interpolator
  optimizer : OptimizerKind
  scalesFromPhysicalShift : Bool
  initialTransform : InitialTransformKind
  initialTransformInPlace : Bool
  executeFixed : Image
  executeMoving : Image

/-- `sitk.Cast(img, sitk.sitkFloat32)`: a fresh image with the same geometry
and sample values, of floating-point pixel type.  The original image is left
untouched (values are modelled exactly, in `ℚ`). -/
def castFloat32 (img : Image) : Image :=
  { img with pixelType := PixelType.float32 }

/-- The configuration `est_lin_transf` builds: mean-squares metric, random
1% sampling, optional fixed mask, linear interpolation, gradient descent
(learning rate 1, 500 iterations, convergence minimum 1e-3, window 20),
scales from physical shift, centered affine initial transform (not in
place), and both images cast to Float32 for `Execute`. -/
def estLinSetup (im_ref im_mov : Image) (mask : Option Image) : RegistrationSetup :=
  { metric := MetricKind.meanSquares
    samplingStrategy := SamplingStrategy.random
    samplingPercentage := 1 / 100
    fixedMask := mask
    interpolator := Interpolator.linear
    optimizer := OptimizerKind.gradientDescent 1 500 (1 / 1000) 20
    scalesFromPhysicalShift := true
    initialTransform := InitialTransformKind.centeredAffine im_ref.dim
    initialTransformInPlace := false
    executeFixed := castFloat32 im_ref
    executeMoving := castFloat32 im_mov }

/-- The configuration `est_nl_transf` builds: Mattes mutual information with
50 histogram bins, random 1% sampling, optional fixed mask, linear
interpolation, L-BFGS-B (gradient tolerance 1e-5, 500 iterations, 5
corrections, 500 function evaluations), B-spline initial transform with the
computed mesh size (not in place), and the images passed to `Execute` at
their original pixel type. -/
def estNlSetup (im_ref im_mov : Image) (mask : Option Image) : RegistrationSetup :=
  { metric := MetricKind.mattesMutualInformation 50
    samplingStrategy := SamplingStrategy.random
    samplingPercentage := 1 / 100
    fixedMask := mask
    interpolator := Interpolator.linear
    optimizer := OptimizerKind.lbfgsb (1 / 100000) 500 5 500
    scalesFromPhysicalShift := false
    initialTransform := InitialTransformKind.bspline (nlMeshSize im_ref)
    initialTransformInPlace := false
    executeFixed := im_ref
    executeMoving := im_mov }

/-- `est_lin_transf(im_ref, im_mov, mask)`, embedded up to the `Execute`
call.  A fixed/moving pair of different dimensionality is rejected by the
library (`CenteredTransformInitializer` requires equal dimensions) before any
optimization begins; otherwise `Execute` is reached with `estLinSetup`. -/
def est_lin_transf (im_ref im_mov : Image) (mask : Option Image) :
    Except RegError RegistrationSetup :=
  if im_ref.dim = im_mov.dim then Except.ok (estLinSetup im_ref im_mov mask)
  else Except.error RegError.invalidInput

/-- `est_nl_transf(im_ref, im_mov, mask)`, embedded up to the `Execute`
call.  A fixed/moving pair of different dimensionality is rejected by the
library inside `Execute`, before the optimizer runs a single iteration;
otherwise `Execute` proceeds with `estNlSetup`. -/
def est_nl_transf (im_ref im_mov : Image) (mask : Option Image) :
    Except RegError RegistrationSetup :=
  if im_ref.dim = im_mov.dim then Except.ok (estNlSetup im_ref im_mov mask)
  else Except.error RegError.invalidInput

/-- Identity direction matrix of dimension `n`. -/
def identityDirection (n : ℕ) : List (List ℚ) :=
  (List.range n).map (fun i => (List.range n).map (fun j => if i = j then 1 else 0))

/-- A concrete axis-aligned image with zero pixel data, for test points. -/
def mkImage (size : List ℕ) (spacing : List ℚ) : Image :=
  { dim := size.length
    size := size
    spacing := spacing
    origin := List.replicate size.length 0
    direction := identityDirection size.length
    pixelType := PixelType.int16
    pixels := fun _ => 0 }

/-- A concrete 1-D image with nonzero sample values, for the fill-value test. -/
def demoImage : Image :=
  { dim := 1
    size := [4]
    spacing := [1]
    origin := [0]
    direction := [[1]]
    pixelType := PixelType.float32
    pixels := fun _ => 7 }

/-- A transform sending every physical point far outside `demoImage`. -/
def farTransform : Transform := fun _ => [100]

/-- A concrete 2-D image and a concrete 3-D image, for dimension-mismatch
test points. -/
def image2D : Image := mkImage [4, 4] [1, 1]

def image3D : Image := mkImage [4, 4, 4] [1, 1, 1]




/-- Helper: reading a replicated list below its length yields the replicated
element, for any default. -/
theorem getD_replicate_of_lt {α : Type} (a d : α) {n i : ℕ} (h : i < n) :
    (List.replicate n a).getD i d = a := by
  simp [List.getD, List.getElem?_replicate, h]

/-- Claim C1: `est_nl_transf` sizes the deformation grid per axis as
`cell_count = round(voxel_count * voxel_spacing / 50.0)` (halves up), clamps
it to a minimum of 3, and hands `cell_count - 1` per axis to the B-spline
transform initializer; for extent 256 voxels at spacing 1.0 the mesh size is
4 per axis, and for extent 10 voxels at spacing 1.0 the clamp forces
cell_count 3 and mesh size 2 per axis. -/
theorem est_nl_transf_grid_sizing (im_ref : Image)
    (h : ∀ i, i < im_ref.dim → 0 < im_ref.spacing.getD i 0) :
    (∀ im_mov mask s, est_nl_transf im_ref im_mov mask = Except.ok s →
        s.initialTransform = InitialTransformKind.bspline (nlMeshSize im_ref))
      ∧ nlMeshSize im_ref = (List.range im_ref.dim).map
          (fun i => specMeshSize (im_ref.size.getD i 0) (im_ref.spacing.getD i 0))
      ∧ nlMeshSize (mkImage [256, 256, 256] [1, 1, 1]) = [4, 4, 4]
      ∧ nlMeshSize (mkImage [10, 10, 10] [1, 1, 1]) = [2, 2, 2] := by
  refine ⟨?_, ?_, ?_, ?_⟩
  · intro im_mov mask s hs
    unfold est_nl_transf at hs
    split at hs
    · injection hs with hs
      subst hs
      rfl
    · simp at hs
  · unfold nlMeshSize nlGridSize
    simp only [List.map_map]
    apply List.map_congr_left
    intro i hi
    have hi2 : i < im_ref.dim := List.mem_range.mp hi
    have h50 : (List.replicate im_ref.dim (50 : ℚ)).getD i 0 = 50 :=
      getD_replicate_of_lt _ _ hi2
    have hsp := h i hi2
    have hnum : (0 : ℚ) ≤ (im_ref.size.getD i 0 : ℚ) * im_ref.spacing.getD i 0 / 50 := by
      apply div_nonneg
      · exact mul_nonneg (Nat.cast_nonneg _) (le_of_lt hsp)
      · norm_num
    have hge : (0 : ℚ) ≤
        (im_ref.size.getD i 0 : ℚ) * im_ref.spacing.getD i 0 / 50 + 1 / 2 := by
      linarith
    simp only [Function.comp, h50, pyInt, if_pos hge, specMeshSize, specCellCount]
  · norm_num [nlMeshSize, nlGridSize, mkImage, pyInt, List.range_succ]
  · norm_num [nlMeshSize, nlGridSize, mkImage, pyInt, List.range_succ]

/-- Witness for C1 at a concrete reference image. -/
theorem est_nl_transf_grid_sizing_witness :
    nlMeshSize (mkImage [256, 256, 256] [1, 1, 1]) = [4, 4, 4] :=
  (est_nl_transf_grid_sizing (mkImage [256, 256, 256] [1, 1, 1])
    (by
      intro i hi
      have hi3 : i < 3 := hi
      interval_cases i <;> norm_num [mkImage])).2.2.1

/-- Claim C2: `apply_lin_transf` and `apply_nl_transf` produce an output
image whose grid geometry (size, spacing, origin, direction) equals the
moving image's own geometry. -/
theorem apply_transf_output_grid (im_mov : Image) (xfm : Transform) :
    ((apply_lin_transf im_mov xfm).size = im_mov.size
      ∧ (apply_lin_transf im_mov xfm).spacing = im_mov.spacing
      ∧ (apply_lin_transf im_mov xfm).origin = im_mov.origin
      ∧ (apply_lin_transf im_mov xfm).direction = im_mov.direction)
    ∧ ((apply_nl_transf im_mov xfm).size = im_mov.size
      ∧ (apply_nl_transf im_mov xfm).spacing = im_mov.spacing
      ∧ (apply_nl_transf im_mov xfm).origin = im_mov.origin
      ∧ (apply_nl_transf im_mov xfm).direction = im_mov.direction) :=
  ⟨⟨rfl, rfl, rfl, rfl⟩, ⟨rfl, rfl, rfl, rfl⟩⟩

/-- Claim C3: on reference and moving images of different dimensionality,
`est_lin_transf` and `est_nl_transf` fail with the invalid-input error
before any optimization begins. -/
theorem est_transf_dim_mismatch (im_ref im_mov : Image) (mask : Option Image)
    (h : im_ref.dim ≠ im_mov.dim) :
    est_lin_transf im_ref im_mov mask = Except.error RegError.invalidInput
      ∧ est_nl_transf im_ref im_mov mask = Except.error RegError.invalidInput := by
  unfold est_lin_transf est_nl_transf
  rw [if_neg h, if_neg h]
  exact ⟨rfl, rfl⟩

/-- Witness for C3 at a concrete 2-D / 3-D pair. -/
theorem est_transf_dim_mismatch_witness :
    est_lin_transf image2D image3D none = Except.error RegError.invalidInput
      ∧ est_nl_transf image2D image3D none = Except.error RegError.invalidInput :=
  est_transf_dim_mismatch image2D image3D none
    (by norm_num [image2D, image3D, mkImage])

/-- Claim C4: resampling is total, and every output sample whose transformed
coordinate falls outside the source image's extent receives the default fill
value 0; a transform mapping every output coordinate out of domain yields an
image of zeros. -/
theorem apply_transf_default_fill (im : Image) (t : Transform) :
    (∀ idx, insideBuffer im.size (continuousIndexFromPhysical im
          (t (physicalPointFromIndex im idx))) = false →
        (apply_lin_transf im t).pixels idx = 0
          ∧ (apply_nl_transf im t).pixels idx = 0)
      ∧ ((∀ idx : List ℤ, insideBuffer im.size (continuousIndexFromPhysical im
            (t (physicalPointFromIndex im idx))) = false) →
          ∀ idx, (apply_lin_transf im t).pixels idx = 0
            ∧ (apply_nl_transf im t).pixels idx = 0) := by
  have key : ∀ idx, insideBuffer im.size (continuousIndexFromPhysical im
      (t (physicalPointFromIndex im idx))) = false →
      (apply_lin_transf im t).pixels idx = 0
        ∧ (apply_nl_transf im t).pixels idx = 0 := by
    intro idx hidx
    constructor <;>
      simp [apply_lin_transf, apply_nl_transf, Resampler.execute, hidx]
  exact ⟨key, fun hall idx => key idx (hall idx)⟩

/-- Witness for C4 at a concrete image and an out-of-domain transform. -/
theorem apply_transf_default_fill_witness :
    (apply_lin_transf demoImage farTransform).pixels [0] = 0
      ∧ (apply_nl_transf demoImage farTransform).pixels [0] = 0 :=
  (apply_transf_default_fill demoImage farTransform).1 [0]
    (by
      have h : List.transpose [[(1 : ℚ)]] = [[1]] := rfl
      norm_num [insideBuffer, continuousIndexFromPhysical, demoImage,
        farTransform, physicalPointFromIndex, matVec, dot, h])

/-- Claim C5: `apply_lin_transf` and `apply_nl_transf` compute the same
function on every image and transform. -/
theorem apply_lin_nl_equiv : ∀ (im_mov : Image) (xfm : Transform),
    apply_lin_transf im_mov xfm = apply_nl_transf im_mov xfm :=
  fun _ _ => rfl

/-- Claim C6: `est_lin_transf` configures gradient descent with a
convergence window within 10 to 20 iterations, a convergence tolerance
within 1e-6 to 1e-3, a maximum iteration count within 100 to 500, and
per-parameter step rescaling from physical shift. -/
theorem est_lin_transf_optimizer_profile (im_ref im_mov : Image)
    (mask : Option Image) (s : RegistrationSetup)
    (h : est_lin_transf im_ref im_mov mask = Except.ok s) :
    ∃ lr n tol win, s.optimizer = OptimizerKind.gradientDescent lr n tol win
      ∧ 10 ≤ win ∧ win ≤ 20
      ∧ (1 / 1000000 : ℚ) ≤ tol ∧ tol ≤ 1 / 1000
      ∧ 100 ≤ n ∧ n ≤ 500
      ∧ s.scalesFromPhysicalShift = true := by
  unfold est_lin_transf at h
  split at h
  · injection h with h
    subst h
    exact ⟨1, 500, 1 / 1000, 20, rfl, by norm_num, by norm_num, by norm_num,
      by norm_num, by norm_num, by norm_num, rfl⟩
  · simp at h

/-- Witness for C6 at a concrete image pair. -/
theorem est_lin_transf_optimizer_profile_witness :
    ∃ lr n tol win, (estLinSetup image2D image2D none).optimizer
        = OptimizerKind.gradientDescent lr n tol win
      ∧ 10 ≤ win ∧ win ≤ 20
      ∧ (1 / 1000000 : ℚ) ≤ tol ∧ tol ≤ 1 / 1000
      ∧ 100 ≤ n ∧ n ≤ 500
      ∧ (estLinSetup image2D image2D none).scalesFromPhysicalShift = true :=
  est_lin_transf_optimizer_profile image2D image2D none
    (estLinSetup image2D image2D none) rfl

/-- Claim C7: `est_nl_transf` configures L-BFGS-B with gradient convergence
tolerance 1e-5, a maximum iteration count within 50 to 500, a
curvature-correction history of 5, and a cap of 500 on objective and
gradient evaluations. -/
theorem est_nl_transf_optimizer_profile (im_ref im_mov : Image)
    (mask : Option Image) (s : RegistrationSetup)
    (h : est_nl_transf im_ref im_mov mask = Except.ok s) :
    ∃ n, s.optimizer = OptimizerKind.lbfgsb (1 / 100000) n 5 500
      ∧ 50 ≤ n ∧ n ≤ 500 := by
  unfold est_nl_transf at h
  split at h
  · injection h with h
    subst h
    exact ⟨500, rfl, by norm_num, by norm_num⟩
  · simp at h

/-- Witness for C7 at a concrete image pair. -/
theorem est_nl_transf_optimizer_profile_witness :
    ∃ n, (estNlSetup image2D image2D none).optimizer
        = OptimizerKind.lbfgsb (1 / 100000) n 5 500
      ∧ 50 ≤ n ∧ n ≤ 500 :=
  est_nl_transf_optimizer_profile image2D image2D none
    (estNlSetup image2D image2D none) rfl

/-- Claim C8: `est_lin_transf` hands `Execute` both images cast to Float32
(the casts preserve geometry and sample values, and are fresh copies — the
caller's images are untouched in this pure embedding). -/
theorem est_lin_transf_float32_cast (im_ref im_mov : Image)
    (mask : Option Image) (s : RegistrationSetup)
    (h : est_lin_transf im_ref im_mov mask = Except.ok s) :
    s.executeFixed = castFloat32 im_ref
      ∧ s.executeMoving = castFloat32 im_mov
      ∧ s.executeFixed.pixelType = PixelType.float32
      ∧ s.executeMoving.pixelType = PixelType.float32
      ∧ (castFloat32 im_ref).size = im_ref.size
      ∧ (castFloat32 im_ref).spacing = im_ref.spacing
      ∧ (castFloat32 im_ref).origin = im_ref.origin
      ∧ (castFloat32 im_ref).direction = im_ref.direction
      ∧ (castFloat32 im_ref).pixels = im_ref.pixels
      ∧ (castFloat32 im_mov).size = im_mov.size
      ∧ (castFloat32 im_mov).pixels = im_mov.pixels := by
  unfold est_lin_transf at h
  split at h
  · injection h with h
    subst h
    exact ⟨rfl, rfl, rfl, rfl, rfl, rfl, rfl, rfl, rfl, rfl, rfl⟩
  · simp at h

/-- Witness for C8 at a concrete image pair. -/
theorem est_lin_transf_float32_cast_witness :
    (estLinSetup image3D image3D none).executeFixed = castFloat32 image3D
      ∧ (estLinSetup image3D image3D none).executeMoving = castFloat32 image3D
      ∧ (estLinSetup image3D image3D none).executeFixed.pixelType = PixelType.float32
      ∧ (estLinSetup image3D image3D none).executeMoving.pixelType = PixelType.float32
      ∧ (castFloat32 image3D).size = image3D.size
      ∧ (castFloat32 image3D).spacing = image3D.spacing
      ∧ (castFloat32 image3D).origin = image3D.origin
      ∧ (castFloat32 image3D).direction = image3D.direction
      ∧ (castFloat32 image3D).pixels = image3D.pixels
      ∧ (castFloat32 image3D).size = image3D.size
      ∧ (castFloat32 image3D).pixels = image3D.pixels :=
  est_lin_transf_float32_cast image3D image3D none
    (estLinSetup image3D image3D none) rfl

/-- Claim C9: `est_nl_transf` uses Mattes mutual information with exactly 50
histogram bins, random 1% sampling — the same sampling strategy and
percentage as `est_lin_transf` — and installs the supplied mask as the
metric's fixed mask. -/
theorem est_nl_transf_metric_profile (im_ref im_mov : Image)
    (mask : Option Image) (s s2 : RegistrationSetup)
    (h : est_nl_transf im_ref im_mov mask = Except.ok s)
    (h2 : est_lin_transf im_ref im_mov mask = Except.ok s2) :
    s.metric = MetricKind.mattesMutualInformation 50
      ∧ s.samplingStrategy = SamplingStrategy.random
      ∧ s.samplingPercentage = 1 / 100
      ∧ s.samplingStrategy = s2.samplingStrategy
      ∧ s.samplingPercentage = s2.samplingPercentage
      ∧ s.fixedMask = mask := by
  unfold est_nl_transf at h
  unfold est_lin_transf at h2
  by_cases hd : im_ref.dim = im_mov.dim
  · rw [if_pos hd] at h h2
    injection h with h
    injection h2 with h2
    subst h
    subst h2
    exact ⟨rfl, rfl, rfl, rfl, rfl, rfl⟩
  · rw [if_neg hd] at h
    simp at h

/-- Witness for C9 at a concrete image pair with a mask supplied. -/
theorem est_nl_transf_metric_profile_witness :
    (estNlSetup image2D image2D (some image2D)).metric
        = MetricKind.mattesMutualInformation 50
      ∧ (estNlSetup image2D image2D (some image2D)).samplingStrategy
        = SamplingStrategy.random
      ∧ (estNlSetup image2D image2D (some image2D)).samplingPercentage = 1 / 100
      ∧ (estNlSetup image2D image2D (some image2D)).samplingStrategy
        = (estLinSetup image2D image2D (some image2D)).samplingStrategy
      ∧ (estNlSetup image2D image2D (some image2D)).samplingPercentage
        = (estLinSetup image2D image2D (some image2D)).samplingPercentage
      ∧ (estNlSetup image2D image2D (some image2D)).fixedMask = some image2D :=
  est_nl_transf_metric_profile image2D image2D (some image2D)
    (estNlSetup image2D image2D (some image2D))
    (estLinSetup image2D image2D (some image2D)) rfl rfl

/-- Claim C10: `est_nl_transf` passes both images to `Execute` at their
original pixel type, with no cast. -/
theorem est_nl_transf_no_cast (im_ref im_mov : Image) (mask : Option Image)
    (s : RegistrationSetup)
    (h : est_nl_transf im_ref im_mov mask = Except.ok s) :
    s.executeFixed = im_ref ∧ s.executeMoving = im_mov
      ∧ s.executeFixed.pixelType = im_ref.pixelType
      ∧ s.executeMoving.pixelType = im_mov.pixelType := by
  unfold est_nl_transf at h
  split at h
  · injection h with h
    subst h
    exact ⟨rfl, rfl, rfl, rfl⟩
  · simp at h

/-- Witness for C10 at a concrete image pair. -/
theorem est_nl_transf_no_cast_witness :
    (estNlSetup image3D image3D none).executeFixed = image3D
      ∧ (estNlSetup image3D image3D none).executeMoving = image3D
      ∧ (estNlSetup image3D image3D none).executeFixed.pixelType = image3D.pixelType
      ∧ (estNlSetup image3D image3D none).executeMoving.pixelType = image3D.pixelType :=
  est_nl_transf_no_cast image3D image3D none (estNlSetup image3D image3D none) rfl

end Registration
